import Mathlib

/-!
Verification of the TrialMatchAI matching and extraction logic
(`src/streamlit_app.py`), shallowly embedded in Lean 4.

Python dictionaries with a fixed schema become structures with `Option`
fields; a key absent from the JSON document is `none`.  Python strings are
Lean `String`s, Python ints are `Int`, Python lists are Lean `List`s.
Fallible operations (opening a PDF, `json.loads`) are modelled with
`Except`.
-/

namespace TrialMatch

/-- A patient row from `sample_patients.csv` (the columns the matcher reads). -/
structure Patient where
  patient_id : String
  stage : String
  mutation_status : String
  performance_status : Int
deriving Repr, DecidableEq

/-- The `mutation_required` value of a trial-criteria JSON document: either a
single string or a list of strings (`isinstance(mutation_required, list)`). -/
inductive MutationReq where
  | scalar (s : String)
  | list (l : List String)
deriving Repr, DecidableEq

/-- A trial `criteria` JSON document.  Each field is `none` when the key is
absent from the document. -/
structure Criteria where
  stage : Option (List String)
  mutation_required : Option MutationReq
  performance_status_max : Option Int
deriving Repr, DecidableEq

/-- A single quote character, as Python `repr` uses around strings. -/
def pyQuote : String := "\x27"

/-- Python `str` of a list of strings, as an f-string renders it:
`str(["I", "II"])` is `"[\x27I\x27, \x27II\x27]"`. -/
def pyStrListRepr (l : List String) : String :=
  "[" ++ String.intercalate ", " (l.map (fun s => pyQuote ++ s ++ pyQuote)) ++ "]"

/-- Lines 56-62 of `streamlit_app.py`: the performance-status check and the
success return.  `trial_criteria.get("performance_status_max", 2)` is
`Option.getD _ 2`. -/
def performance_check (p : Patient) (c : Criteria) : Bool × List String :=
  let maxv := c.performance_status_max.getD 2
  if p.performance_status > maxv then
    (false, ["Performance status " ++ toString p.performance_status ++
             " exceeds max " ++ toString maxv])
  else
    (true, ["Meets all inclusion criteria"])

/-- Lines 44-54 of `streamlit_app.py`: the mutation check, then fall through
to the performance-status check.  Python truthiness of
`mutation_required` skips the check for `None`, `""` and `[]`. -/
def mutation_check (p : Patient) (c : Criteria) : Bool × List String :=
  match c.mutation_required with
  | none => performance_check p c
  | some (.list l) =>
      if l = [] then performance_check p c
      else if !(l.contains p.mutation_status) then
        (false, ["Mutation " ++ p.mutation_status ++ " not in required list " ++
                 pyStrListRepr l])
      else performance_check p c
  | some (.scalar s) =>
      if s = "" then performance_check p c
      else if p.mutation_status ≠ s then
        (false, ["Mutation " ++ p.mutation_status ++ " does not match required " ++ s])
      else performance_check p c

/-- Lines 36-62 of `streamlit_app.py`: `match_patient_to_trial`.  The stage
check runs first; each failing check returns immediately with the single
reason it appended. -/
def match_patient_to_trial (p : Patient) (c : Criteria) : Bool × List String :=
  match c.stage with
  | none => mutation_check p c
  | some stages =>
      if !(stages.contains p.stage) then
        (false, ["Patient stage " ++ p.stage ++ " not in allowed stages " ++
                 pyStrListRepr stages])
      else mutation_check p c

/-! Check-level predicates, written from the spec wording, to compare the
code against: which checks are applicable and which pass. -/

/-- The spec stage check: applicable only when `criteria.stage` is present;
passes when inapplicable or when the patient stage is a member. -/
def stage_check_passes (p : Patient) (c : Criteria) : Bool :=
  match c.stage with
  | none => true
  | some stages => stages.contains p.stage

/-- The spec mutation check is applicable when `mutation_required` is present
and non-empty. -/
def mutation_check_applicable (c : Criteria) : Bool :=
  match c.mutation_required with
  | none => false
  | some (.scalar s) => s ≠ ""
  | some (.list l) => l ≠ []

/-- The spec mutation check: passes when inapplicable; a scalar requirement
demands equality, a list requirement demands membership. -/
def mutation_check_passes (p : Patient) (c : Criteria) : Bool :=
  match c.mutation_required with
  | none => true
  | some (.scalar s) => if s = "" then true else p.mutation_status == s
  | some (.list l) => if l = [] then true else l.contains p.mutation_status

/-- The spec performance-status ceiling: `performance_status_max`, defaulting
to 2 when absent. -/
def performance_ceiling (c : Criteria) : Int :=
  c.performance_status_max.getD 2

/-- The spec performance-status check: always applicable; passes iff the
patient value does not strictly exceed the ceiling. -/
def performance_check_passes (p : Patient) (c : Criteria) : Bool :=
  decide (p.performance_status ≤ performance_ceiling c)

/-! PDF criteria extraction (`extract_criteria_from_pdf`, lines 67-82).
A page's `page.extract_text()` result is modelled as `Option String`
(`None` when no text could be extracted); a document that fails to open
(`pdfplumber.open` raising) is the `Except.error` case of the input. -/

/-- Substring occurrence on character lists: Python `needle in hay`. -/
def occursIn (needle hay : List Char) : Bool :=
  match hay with
  | [] => needle.isEmpty
  | _ :: rest => needle.isPrefixOf hay || occursIn needle rest

/-- Python `needle in hay` on strings. -/
def strContains (hay needle : String) : Bool :=
  occursIn needle.data hay.data

/-- Python `s.lower()` (character-wise lowercasing). -/
def py_lower (s : String) : String :=
  String.mk (s.data.map Char.toLower)

/-- Python `s.strip()`: drop whitespace from both ends. -/
def py_strip (s : String) : String :=
  String.mk ((((s.data.dropWhile Char.isWhitespace).reverse).dropWhile
    Char.isWhitespace).reverse)

/-- Split a character list at every occurrence of `c`, keeping empty pieces,
as Python `split` with a one-character separator does. -/
def splitOnChar (c : Char) : List Char → List (List Char)
  | [] => [[]]
  | x :: rest =>
      if x = c then [] :: splitOnChar c rest
      else
        match splitOnChar c rest with
        | [] => [[x]]
        | h :: t => (x :: h) :: t

/-- Python `text.split("\n")`. -/
def py_splitlines (s : String) : List String :=
  (splitOnChar (Char.ofNat 10) s.data).map String.mk

/-- Lines 77-81 of `streamlit_app.py`: classify one line of page text.
A line whose lowercasing contains "inclusion" is stripped and appended to the
inclusion list; otherwise one containing "exclusion" goes to the exclusion
list; any other line is dropped. -/
def classify_line (acc : List String × List String) (line : String) :
    List String × List String :=
  let low := py_lower line
  if strContains low "inclusion" then (acc.1 ++ [py_strip line], acc.2)
  else if strContains low "exclusion" then (acc.1, acc.2 ++ [py_strip line])
  else acc

/-- Lines 71-81 of `streamlit_app.py`: process one page.  `if not text:
continue` skips a page whose extracted text is `None` or empty. -/
def page_step (acc : List String × List String) (pg : Option String) :
    List String × List String :=
  match pg with
  | none => acc
  | some text =>
      if text = "" then acc
      else (py_splitlines text).foldl classify_line acc

/-- The text-processing body of `extract_criteria_from_pdf`, over the list of
per-page extraction results. -/
def extract_criteria_from_text (pages : List (Option String)) :
    List String × List String :=
  pages.foldl page_step ([], [])

/-- Lines 67-82 of `streamlit_app.py`: `extract_criteria_from_pdf`.  The
`with pdfplumber.open(pdf_path)` block is not wrapped in any try/except, so a
document that fails to open propagates its exception (the `Except.error`
case) to the caller. -/
def extract_criteria_from_pdf (doc : Except Unit (List (Option String))) :
    Except Unit (List String × List String) :=
  match doc with
  | .error e => .error e
  | .ok pages => .ok (extract_criteria_from_text pages)

/-! Spec-side helpers used to state what the extraction does per line. -/

/-- The lines the extraction loop visits: pages with no or empty text
contribute none, others are split on newline. -/
def page_lines : Option String → List String
  | none => []
  | some t => if t = "" then [] else py_splitlines t

/-- All lines visited across the document, in order. -/
def all_lines (pages : List (Option String)) : List String :=
  (pages.map page_lines).flatten

/-- A line collected into the inclusion list. -/
def is_inclusion_line (l : String) : Bool :=
  strContains (py_lower l) "inclusion"

/-- A line collected into the exclusion list: the `elif` branch. -/
def is_exclusion_line (l : String) : Bool :=
  !is_inclusion_line l && strContains (py_lower l) "exclusion"

/-! The aggregation loops of the two Streamlit tabs (lines 166-173 and
215-222), and the LLM interpretation fallback (lines 112-120). -/

/-- A trial JSON document as `load_trials` returns it: a title and a
criteria object. -/
structure TrialDoc where
  title : String
  criteria : Criteria
deriving Repr, DecidableEq

/-- One entry of tab 1's `matched_trials` list. -/
structure MatchResult where
  trial_title : String
  is_match : Bool
  reasons : List String
deriving Repr, DecidableEq

/-- Lines 166-173 of `streamlit_app.py`: tab 1 iterates the trials in their
given order and appends one result per trial. -/
def matchPatientAcrossTrials (p : Patient) (ts : List TrialDoc) :
    List MatchResult :=
  ts.foldl
    (fun acc t =>
      acc ++ [{ trial_title := t.title,
                is_match := (match_patient_to_trial p t.criteria).1,
                reasons := (match_patient_to_trial p t.criteria).2 }])
    []

/-- Lines 215-222 of `streamlit_app.py`: tab 2 iterates the patient rows in
their given order and appends the id of each matching patient. -/
def matchTrialAcrossPatients (c : Criteria) (ps : List Patient) :
    List String :=
  ps.foldl
    (fun acc p =>
      if (match_patient_to_trial p c).1 then acc ++ [p.patient_id] else acc)
    []

/-- A Python value as `json.loads` may return it (the fragment needed here:
strings, ints, lists, dicts). -/
inductive PyJson where
  | str (s : String)
  | int (n : Int)
  | list (l : List PyJson)
  | dict (d : List (String × PyJson))

/-- Lines 112-120 of `streamlit_app.py`: the tail of
`interpret_trial_criteria_llm`.  `json.loads` is the external parameter
`json_loads`; a `JSONDecodeError` is its `Except.error` case, caught and
replaced by the empty dict `{}` after reporting via `st.error`. -/
def interpret_trial_criteria_llm
    (json_loads : String → Except Unit PyJson) (content : String) : PyJson :=
  match json_loads content with
  | .ok structured => structured
  | .error _ => PyJson.dict []

/-! Reason strings, named so theorems can refer to them. -/

/-- The reason appended by a failing stage check. -/
def stage_fail_reason (p : Patient) (c : Criteria) : String :=
  "Patient stage " ++ p.stage ++ " not in allowed stages " ++
    pyStrListRepr (c.stage.getD [])

/-- The reason appended by a failing mutation check (scalar or list form). -/
def mutation_fail_reason (p : Patient) (c : Criteria) : String :=
  match c.mutation_required with
  | some (.list l) =>
      "Mutation " ++ p.mutation_status ++ " not in required list " ++ pyStrListRepr l
  | some (.scalar s) =>
      "Mutation " ++ p.mutation_status ++ " does not match required " ++ s
  | none => ""

/-- The reason appended by a failing performance-status check. -/
def perf_fail_reason (p : Patient) (c : Criteria) : String :=
  "Performance status " ++ toString p.performance_status ++
    " exceeds max " ++ toString (performance_ceiling c)

/-! Characterization lemmas relating the code to the check-level
predicates. -/

lemma performance_check_eq (p : Patient) (c : Criteria) :
    performance_check p c =
      if performance_check_passes p c = false then
        (false, [perf_fail_reason p c])
      else (true, ["Meets all inclusion criteria"]) := by
  unfold performance_check performance_check_passes perf_fail_reason
    performance_ceiling
  by_cases h : p.performance_status ≤ c.performance_status_max.getD 2
  · simp [h, not_lt.mpr h]
  · simp [h, lt_of_not_le h]

lemma mutation_check_eq (p : Patient) (c : Criteria) :
    mutation_check p c =
      if mutation_check_passes p c = false then
        (false, [mutation_fail_reason p c])
      else performance_check p c := by
  unfold mutation_check mutation_check_passes mutation_fail_reason
  cases hm : c.mutation_required with
  | none => simp
  | some mr =>
    cases mr with
    | scalar s =>
      by_cases hs : s = ""
      · simp [hs]
      · by_cases he : p.mutation_status = s <;> simp [hs, he]
    | list l =>
      by_cases hl : l = []
      · simp [hl]
      · by_cases he : l.contains p.mutation_status <;> simp [hl, he]

lemma match_eq_cases (p : Patient) (c : Criteria) :
    match_patient_to_trial p c =
      if stage_check_passes p c = false then
        (false, [stage_fail_reason p c])
      else if mutation_check_passes p c = false then
        (false, [mutation_fail_reason p c])
      else if performance_check_passes p c = false then
        (false, [perf_fail_reason p c])
      else (true, ["Meets all inclusion criteria"]) := by
  rw [← performance_check_eq, ← mutation_check_eq]
  unfold match_patient_to_trial stage_check_passes stage_fail_reason
  cases hst : c.stage with
  | none => simp [← mutation_check_eq]
  | some stages =>
    by_cases hc : stages.contains p.stage <;> simp [hc, ← mutation_check_eq]

lemma match_fst (p : Patient) (c : Criteria) :
    (match_patient_to_trial p c).1 =
      (stage_check_passes p c && mutation_check_passes p c &&
        performance_check_passes p c) := by
  rw [match_eq_cases]
  by_cases h1 : stage_check_passes p c <;>
    by_cases h2 : mutation_check_passes p c <;>
    by_cases h3 : performance_check_passes p c <;>
    simp [h1, h2, h3]

/-! No failure reason can coincide with the fixed success message: each has a
different length than its 28 characters. -/

lemma ne_meets_of_length {s : String} (h : ¬ s.length = 28) :
    s ≠ "Meets all inclusion criteria" := fun he => h (by rw [he]; decide)

lemma stage_fail_reason_ne (p : Patient) (c : Criteria) :
    stage_fail_reason p c ≠ "Meets all inclusion criteria" := by
  apply ne_meets_of_length
  unfold stage_fail_reason
  simp only [String.length_append]
  have h1 : ("Patient stage " : String).length = 14 := rfl
  have h2 : (" not in allowed stages " : String).length = 23 := rfl
  omega

lemma mutation_fail_reason_ne (p : Patient) (c : Criteria) :
    mutation_fail_reason p c ≠ "Meets all inclusion criteria" := by
  apply ne_meets_of_length
  unfold mutation_fail_reason
  cases c.mutation_required with
  | none => exact (by decide : ¬ ("" : String).length = 28)
  | some mr =>
    cases mr with
    | scalar s =>
      show ¬ ("Mutation " ++ p.mutation_status ++
        " does not match required " ++ s).length = 28
      simp only [String.length_append]
      have h1 : ("Mutation " : String).length = 9 := rfl
      have h2 : (" does not match required " : String).length = 25 := rfl
      omega
    | list l =>
      show ¬ ("Mutation " ++ p.mutation_status ++
        " not in required list " ++ pyStrListRepr l).length = 28
      simp only [String.length_append]
      have h1 : ("Mutation " : String).length = 9 := rfl
      have h2 : (" not in required list " : String).length = 22 := rfl
      omega

lemma perf_fail_reason_ne (p : Patient) (c : Criteria) :
    perf_fail_reason p c ≠ "Meets all inclusion criteria" := by
  apply ne_meets_of_length
  unfold perf_fail_reason
  simp only [String.length_append]
  have h1 : ("Performance status " : String).length = 19 := rfl
  have h2 : (" exceeds max " : String).length = 13 := rfl
  omega

/-! ## The claims -/

/-- C1, counterexample to the claim as stated: with criteria making all
three checks applicable (stage list, scalar mutation requirement, explicit
performance ceiling) and a patient passing all three, the returned reasons
sequence holds a single success string, not one reason per applicable
check (which would be three). -/
theorem C1_counterexample_single_reason :
    match_patient_to_trial ⟨"P1", "I", "EGFR", 0⟩
        ⟨some ["I"], some (.scalar "EGFR"), some 2⟩ =
      (true, ["Meets all inclusion criteria"]) ∧
    (match_patient_to_trial ⟨"P1", "I", "EGFR", 0⟩
        ⟨some ["I"], some (.scalar "EGFR"), some 2⟩).2.length ≠ 3 := by
  decide

/-- C1 (amended): the checks run in the fixed order stage, mutation,
performance status, but evaluation short-circuits at the first failing
check, returning exactly that check's single reason; passing checks
contribute no reason, and when all applicable checks pass the single
reason is the success message. -/
theorem C1_checks_order_short_circuit (p : Patient) (c : Criteria) :
    (stage_check_passes p c = false →
      match_patient_to_trial p c = (false, [stage_fail_reason p c])) ∧
    (stage_check_passes p c = true → mutation_check_passes p c = false →
      match_patient_to_trial p c = (false, [mutation_fail_reason p c])) ∧
    (stage_check_passes p c = true → mutation_check_passes p c = true →
      performance_check_passes p c = false →
      match_patient_to_trial p c = (false, [perf_fail_reason p c])) ∧
    (stage_check_passes p c = true → mutation_check_passes p c = true →
      performance_check_passes p c = true →
      match_patient_to_trial p c = (true, ["Meets all inclusion criteria"])) := by
  refine ⟨fun h1 => ?_, fun h1 h2 => ?_, fun h1 h2 h3 => ?_, fun h1 h2 h3 => ?_⟩
  · rw [match_eq_cases]; simp [h1]
  · rw [match_eq_cases]; simp [h1, h2]
  · rw [match_eq_cases]; simp [h1, h2, h3]
  · rw [match_eq_cases]; simp [h1, h2, h3]

/-- Witness for C1: a patient whose stage fails the stage check gets exactly
that check's reason. -/
theorem C1_checks_order_short_circuit_witness :
    stage_check_passes ⟨"P2", "IV", "KRAS", 1⟩
        ⟨some ["I", "II"], none, none⟩ = false ∧
    match_patient_to_trial ⟨"P2", "IV", "KRAS", 1⟩
        ⟨some ["I", "II"], none, none⟩ =
      (false, [stage_fail_reason ⟨"P2", "IV", "KRAS", 1⟩
        ⟨some ["I", "II"], none, none⟩]) :=
  ⟨by decide,
   (C1_checks_order_short_circuit ⟨"P2", "IV", "KRAS", 1⟩
     ⟨some ["I", "II"], none, none⟩).1 (by decide)⟩

/-- C2: the performance-status check applies to every patient with ceiling
`performance_status_max` (default 2 when absent) and, once the stage and
mutation checks pass, the verdict is a match exactly when the patient's
performance status does not strictly exceed the ceiling. -/
theorem C2_performance_status_check (p : Patient) (c : Criteria)
    (h1 : stage_check_passes p c = true)
    (h2 : mutation_check_passes p c = true) :
    performance_ceiling c = c.performance_status_max.getD 2 ∧
    ((match_patient_to_trial p c).1 = true ↔
      p.performance_status ≤ c.performance_status_max.getD 2) := by
  refine ⟨rfl, ?_⟩
  rw [match_fst, h1, h2]
  simp [performance_check_passes, performance_ceiling]

/-- Witness for C2, at the spec's boundary examples: performance status 2
against an explicit ceiling of 2 matches, performance status 3 against the
same criteria does not. -/
theorem C2_performance_status_check_witness :
    (match_patient_to_trial ⟨"P1", "I", "EGFR", 2⟩ ⟨none, none, some 2⟩).1 =
      true ∧
    (match_patient_to_trial ⟨"P1", "I", "EGFR", 3⟩ ⟨none, none, some 2⟩).1 =
      false := by
  constructor
  · exact (C2_performance_status_check ⟨"P1", "I", "EGFR", 2⟩
      ⟨none, none, some 2⟩ rfl rfl).2.mpr (by decide)
  · have h := (C2_performance_status_check ⟨"P1", "I", "EGFR", 3⟩
      ⟨none, none, some 2⟩ rfl rfl).2
    cases hb : (match_patient_to_trial ⟨"P1", "I", "EGFR", 3⟩
        ⟨none, none, some 2⟩).1 with
    | false => rfl
    | true => exact absurd (h.mp hb) (by decide)

/-- C3: once the stage check passes, the verdict is the conjunction of the
mutation check (which passes vacuously when `mutation_required` is absent or
empty, demands equality for a scalar requirement and membership for a list
requirement) and the performance-status check; moreover when the mutation
check is inapplicable the evaluation reduces to the performance-status check
alone. -/
theorem C3_mutation_check (p : Patient) (c : Criteria)
    (h1 : stage_check_passes p c = true) :
    ((match_patient_to_trial p c).1 =
      (mutation_check_passes p c && performance_check_passes p c)) ∧
    (mutation_check_applicable c = false →
      match_patient_to_trial p c = performance_check p c) := by
  constructor
  · rw [match_fst, h1]; simp
  · intro h2
    have hm : mutation_check p c = performance_check p c := by
      unfold mutation_check
      unfold mutation_check_applicable at h2
      cases hmr : c.mutation_required with
      | none => rfl
      | some mr =>
        cases mr with
        | scalar s => rw [hmr] at h2; simp at h2; simp [h2]
        | list l => rw [hmr] at h2; simp at h2; simp [h2]
    unfold match_patient_to_trial
    unfold stage_check_passes at h1
    cases hst : c.stage with
    | none => exact hm
    | some stages =>
      rw [hst] at h1
      simp only [] at h1
      simp at h1
      simp [h1, hm]

/-- Witness for C3, at the spec's scalar example: mutation status EGFR
against scalar requirement EGFR passes the mutation check, so the verdict is
decided by the remaining checks (and is a match here). -/
theorem C3_mutation_check_witness :
    stage_check_passes ⟨"P1", "I", "EGFR", 1⟩
      ⟨none, some (.scalar "EGFR"), none⟩ = true ∧
    (match_patient_to_trial ⟨"P1", "I", "EGFR", 1⟩
        ⟨none, some (.scalar "EGFR"), none⟩).1 =
      (mutation_check_passes ⟨"P1", "I", "EGFR", 1⟩
          ⟨none, some (.scalar "EGFR"), none⟩ &&
        performance_check_passes ⟨"P1", "I", "EGFR", 1⟩
          ⟨none, some (.scalar "EGFR"), none⟩) :=
  ⟨rfl,
   (C3_mutation_check ⟨"P1", "I", "EGFR", 1⟩
     ⟨none, some (.scalar "EGFR"), none⟩ rfl).1⟩

/-- C4: the stage check is applied only when `criteria.stage` is present: a
patient stage outside the allowed list makes evaluation return `false` with
the single reason naming the patient's stage and the allowed list; a member
stage, or an absent `stage` key, hands over to the remaining checks. -/
theorem C4_stage_check (p : Patient) (c : Criteria) :
    (∀ stages, c.stage = some stages → stages.contains p.stage = false →
      match_patient_to_trial p c =
        (false, ["Patient stage " ++ p.stage ++ " not in allowed stages " ++
                 pyStrListRepr stages])) ∧
    (∀ stages, c.stage = some stages → stages.contains p.stage = true →
      match_patient_to_trial p c = mutation_check p c) ∧
    (c.stage = none → match_patient_to_trial p c = mutation_check p c) := by
  refine ⟨fun stages hs hc => ?_, fun stages hs hc => ?_, fun hs => ?_⟩
  · have hc2 : p.stage ∉ stages := by simpa using hc
    unfold match_patient_to_trial; rw [hs]; simp [hc2]
  · have hc2 : p.stage ∈ stages := by simpa using hc
    unfold match_patient_to_trial; rw [hs]; simp [hc2]
  · unfold match_patient_to_trial; rw [hs]

/-- Witness for C4, at the spec's example: stage IIIA against allowed stages
I and II is rejected with a reason naming IIIA and the allowed list. -/
theorem C4_stage_check_witness :
    (⟨some ["I", "II"], none, none⟩ : Criteria).stage = some ["I", "II"] ∧
    (["I", "II"].contains "IIIA") = false ∧
    match_patient_to_trial ⟨"P1", "IIIA", "EGFR", 0⟩
        ⟨some ["I", "II"], none, none⟩ =
      (false,
       ["Patient stage IIIA not in allowed stages [\x27I\x27, \x27II\x27]"]) := by
  refine ⟨rfl, by decide, ?_⟩
  have h := (C4_stage_check ⟨"P1", "IIIA", "EGFR", 0⟩
    ⟨some ["I", "II"], none, none⟩).1 ["I", "II"] rfl (by decide)
  rw [h]
  decide

/-- C5, counterexample to the claim as stated: with a criteria document
holding none of the three keys, a patient with performance status 3 is
rejected (default ceiling 2), so not every patient matches. -/
theorem C5_counterexample_perf_default :
    (match_patient_to_trial ⟨"P1", "IIIA", "EGFR", 3⟩ ⟨none, none, none⟩).1 =
      false ∧
    match_patient_to_trial ⟨"P1", "IIIA", "EGFR", 3⟩ ⟨none, none, none⟩ =
      (false, ["Performance status 3 exceeds max 2"]) := by
  decide

/-- C5 (amended): with a criteria document holding none of the keys `stage`,
`mutation_required` and `performance_status_max`, the verdict is a match
exactly when the patient's performance status is at most the default
ceiling 2. -/
theorem C5_empty_criteria_verdict (p : Patient) :
    (match_patient_to_trial p ⟨none, none, none⟩).1 =
      decide (p.performance_status ≤ 2) := by
  rw [match_fst]
  simp [stage_check_passes, mutation_check_passes, performance_check_passes,
    performance_ceiling]

/-- C10: the reasons list always has exactly one element; the verdict is a
match exactly when that element is the fixed success string; and on a failed
verdict the single element is the reason of the first failing check in the
order stage, mutation, performance status. -/
theorem C10_single_reason_invariant (p : Patient) (c : Criteria) :
    (match_patient_to_trial p c).2.length = 1 ∧
    ((match_patient_to_trial p c).1 = true ↔
      (match_patient_to_trial p c).2 = ["Meets all inclusion criteria"]) ∧
    ((match_patient_to_trial p c).1 = false →
      (match_patient_to_trial p c).2 =
        [if stage_check_passes p c = false then stage_fail_reason p c
         else if mutation_check_passes p c = false then mutation_fail_reason p c
         else perf_fail_reason p c]) := by
  rw [match_eq_cases]
  by_cases h1 : stage_check_passes p c <;>
    by_cases h2 : mutation_check_passes p c <;>
    by_cases h3 : performance_check_passes p c <;>
    simp [h1, h2, h3, stage_fail_reason_ne, mutation_fail_reason_ne,
      perf_fail_reason_ne]

/-- Witness for C10: a patient failing only the performance-status check gets
exactly that check's reason as the single entry. -/
theorem C10_single_reason_invariant_witness :
    (match_patient_to_trial ⟨"P1", "I", "EGFR", 3⟩ ⟨none, none, none⟩).1 =
      false ∧
    (match_patient_to_trial ⟨"P1", "I", "EGFR", 3⟩ ⟨none, none, none⟩).2 =
      [if stage_check_passes ⟨"P1", "I", "EGFR", 3⟩ ⟨none, none, none⟩ = false
       then stage_fail_reason ⟨"P1", "I", "EGFR", 3⟩ ⟨none, none, none⟩
       else if mutation_check_passes ⟨"P1", "I", "EGFR", 3⟩
           ⟨none, none, none⟩ = false
       then mutation_fail_reason ⟨"P1", "I", "EGFR", 3⟩ ⟨none, none, none⟩
       else perf_fail_reason ⟨"P1", "I", "EGFR", 3⟩ ⟨none, none, none⟩] :=
  ⟨by decide,
   (C10_single_reason_invariant ⟨"P1", "I", "EGFR", 3⟩
     ⟨none, none, none⟩).2.2 (by decide)⟩

/-! Extraction loop characterization. -/

lemma classify_foldl (lines : List String) (acc : List String × List String) :
    lines.foldl classify_line acc =
      (acc.1 ++ (lines.filter is_inclusion_line).map py_strip,
       acc.2 ++ (lines.filter is_exclusion_line).map py_strip) := by
  induction lines generalizing acc with
  | nil => simp
  | cons l rest ih =>
    rw [List.foldl_cons, ih]
    unfold classify_line
    by_cases h1 : strContains (py_lower l) "inclusion"
    · have hi : is_inclusion_line l = true := h1
      have he : is_exclusion_line l = false := by simp [is_exclusion_line, hi]
      simp [h1, hi, he, List.filter_cons]
    · have hi : is_inclusion_line l = false := by
        simpa [is_inclusion_line] using h1
      by_cases h2 : strContains (py_lower l) "exclusion"
      · have he : is_exclusion_line l = true := by
          simp [is_exclusion_line, hi, h2]
        simp [h1, h2, hi, he, List.filter_cons]
      · have he : is_exclusion_line l = false := by
          simp [is_exclusion_line, hi, h2]
        simp [h1, h2, hi, he, List.filter_cons]

lemma page_step_foldl (pages : List (Option String))
    (acc : List String × List String) :
    pages.foldl page_step acc =
      (acc.1 ++ ((all_lines pages).filter is_inclusion_line).map py_strip,
       acc.2 ++ ((all_lines pages).filter is_exclusion_line).map py_strip) := by
  induction pages generalizing acc with
  | nil => simp [all_lines]
  | cons pg rest ih =>
    rw [List.foldl_cons, ih]
    have hall : all_lines (pg :: rest) = page_lines pg ++ all_lines rest := by
      simp [all_lines]
    rw [hall]
    have hps : page_step acc pg =
        (acc.1 ++ ((page_lines pg).filter is_inclusion_line).map py_strip,
         acc.2 ++ ((page_lines pg).filter is_exclusion_line).map py_strip) := by
      cases pg with
      | none => simp [page_step, page_lines]
      | some t =>
        by_cases ht : t = ""
        · simp [page_step, page_lines, ht]
        · simp [page_step, page_lines, ht, classify_foldl]
    rw [hps]
    simp [List.filter_append]

lemma extract_text_eq (pages : List (Option String)) :
    extract_criteria_from_text pages =
      (((all_lines pages).filter is_inclusion_line).map py_strip,
       ((all_lines pages).filter is_exclusion_line).map py_strip) := by
  unfold extract_criteria_from_text
  rw [page_step_foldl]
  simp

lemma all_lines_nil_of_empty :
    ∀ (pages : List (Option String)),
      (∀ pg ∈ pages, pg = none ∨ pg = some "") → all_lines pages = []
  | [], _ => rfl
  | pg :: rest, h => by
      have hpg := h pg (List.mem_cons_self pg rest)
      have hrest := all_lines_nil_of_empty rest
        (fun q hq => h q (List.mem_cons_of_mem pg hq))
      simp only [all_lines, List.map_cons, List.flatten_cons] at hrest ⊢
      rcases hpg with h1 | h1 <;> subst h1 <;> simp [page_lines, hrest]

/-- C6, counterexample to the claim as stated: a document whose first line is
an inclusion heading followed by a body line does not capture the body line
(the text between the heading and the end of the document); only the heading
line itself, which contains the word "inclusion", is collected. -/
theorem C6_counterexample_body_not_captured :
    extract_criteria_from_text [some "Inclusion Criteria\nAge over 18"] =
      (["Inclusion Criteria"], []) ∧
    "Age over 18" ∉
      (extract_criteria_from_text [some "Inclusion Criteria\nAge over 18"]).1 := by
  decide

/-- C6 (amended): deterministic extraction classifies individual lines, not
spans: a line whose lowercasing contains "inclusion" is collected
(whitespace-stripped) into the inclusion sequence, else one containing
"exclusion" into the exclusion sequence, and every other line is dropped;
input with no such lines yields two empty sequences rather than an error. -/
theorem C6_extraction_line_classification (pages : List (Option String)) :
    extract_criteria_from_text pages =
      (((all_lines pages).filter is_inclusion_line).map py_strip,
       ((all_lines pages).filter is_exclusion_line).map py_strip) ∧
    ((∀ l ∈ all_lines pages,
        is_inclusion_line l = false ∧ is_exclusion_line l = false) →
      extract_criteria_from_text pages = ([], [])) := by
  refine ⟨extract_text_eq pages, fun h => ?_⟩
  rw [extract_text_eq]
  have h1 : (all_lines pages).filter is_inclusion_line = [] := by
    apply List.filter_eq_nil_iff.mpr
    intro l hl
    simp [(h l hl).1]
  have h2 : (all_lines pages).filter is_exclusion_line = [] := by
    apply List.filter_eq_nil_iff.mpr
    intro l hl
    simp [(h l hl).2]
  rw [h1, h2]
  rfl

/-- Witness for C6: a document with no heading-bearing lines yields two
empty sequences. -/
theorem C6_extraction_line_classification_witness :
    (∀ l ∈ all_lines [some "no headings here", none],
        is_inclusion_line l = false ∧ is_exclusion_line l = false) ∧
    extract_criteria_from_text [some "no headings here", none] = ([], []) :=
  ⟨by decide,
   (C6_extraction_line_classification [some "no headings here", none]).2
     (by decide)⟩

/-- C8, counterexample to the claim as stated: `extract_criteria_from_pdf`
wraps no try/except around opening the document, so a document that fails to
open propagates its exception rather than yielding empty sequences. -/
theorem C8_counterexample_error_propagates :
    extract_criteria_from_pdf (Except.error ()) = Except.error () ∧
    extract_criteria_from_pdf (Except.error ()) ≠ Except.ok ([], []) :=
  ⟨rfl, fun h => Except.noConfusion h⟩

/-- C8 (amended): a document-level extraction failure is not caught and
propagates to the caller; the handling is per page: a page whose text
extraction yields nothing (or empty text) is skipped, so a readable document
with only such pages yields empty inclusion and exclusion sequences. -/
theorem C8_page_skip_and_error_propagation (e : Unit)
    (pages : List (Option String)) :
    extract_criteria_from_pdf (Except.error e) = Except.error e ∧
    ((∀ pg ∈ pages, pg = none ∨ pg = some "") →
      extract_criteria_from_pdf (Except.ok pages) = Except.ok ([], [])) := by
  refine ⟨rfl, fun h => ?_⟩
  show Except.ok (extract_criteria_from_text pages) = _
  rw [extract_text_eq, all_lines_nil_of_empty pages h]
  rfl

/-- Witness for C8: an unreadable document propagates its error, and a
readable document of one text-less page and one empty-text page yields two
empty sequences. -/
theorem C8_page_skip_and_error_propagation_witness :
    (∀ pg ∈ ([none, some ""] : List (Option String)),
        pg = none ∨ pg = some "") ∧
    extract_criteria_from_pdf (Except.error ()) = Except.error () ∧
    extract_criteria_from_pdf (Except.ok [none, some ""]) =
      Except.ok ([], []) :=
  ⟨by decide,
   (C8_page_skip_and_error_propagation () [none, some ""]).1,
   (C8_page_skip_and_error_propagation () [none, some ""]).2 (by decide)⟩

/-! Aggregation loop characterization. -/

lemma matchAcross_foldl (p : Patient) :
    ∀ (ts : List TrialDoc) (acc : List MatchResult),
      ts.foldl
        (fun acc t =>
          acc ++ [{ trial_title := t.title,
                    is_match := (match_patient_to_trial p t.criteria).1,
                    reasons := (match_patient_to_trial p t.criteria).2 }])
        acc =
      acc ++ ts.map
        (fun t => { trial_title := t.title,
                    is_match := (match_patient_to_trial p t.criteria).1,
                    reasons := (match_patient_to_trial p t.criteria).2 })
  | [], acc => by simp
  | t :: ts, acc => by
      rw [List.foldl_cons, matchAcross_foldl p ts]
      simp

lemma matchFilter_foldl (c : Criteria) :
    ∀ (ps : List Patient) (acc : List String),
      ps.foldl
        (fun acc p =>
          if (match_patient_to_trial p c).1 then acc ++ [p.patient_id]
          else acc)
        acc =
      acc ++ (ps.filter (fun p => (match_patient_to_trial p c).1)).map
        Patient.patient_id
  | [], acc => by simp
  | p :: ps, acc => by
      rw [List.foldl_cons, matchFilter_foldl c ps]
      by_cases h : (match_patient_to_trial p c).1 <;>
        simp [h, List.filter_cons]

/-- C7: tab 1 produces one result per trial in the order the trials were
supplied (the titles of the output sequence are the input titles, in order),
and tab 2 collects the matching patients as the order-preserving filter of
the supplied patient sequence — neither is re-sorted by match status. -/
theorem C7_order_preserved (p : Patient) (ts : List TrialDoc) (c : Criteria)
    (ps : List Patient) :
    (matchPatientAcrossTrials p ts).map MatchResult.trial_title =
      ts.map TrialDoc.title ∧
    matchTrialAcrossPatients c ps =
      (ps.filter (fun q => (match_patient_to_trial q c).1)).map
        Patient.patient_id := by
  constructor
  · unfold matchPatientAcrossTrials
    rw [matchAcross_foldl]
    simp [List.map_map, Function.comp]
  · unfold matchTrialAcrossPatients
    rw [matchFilter_foldl]
    simp

/-- C9: when the interpretation response fails to parse as JSON, the
function catches the decode error and returns the empty dict, never an
unhandled exception. -/
theorem C9_parse_failure_placeholder
    (json_loads : String → Except Unit PyJson) (content : String) (e : Unit)
    (h : json_loads content = Except.error e) :
    interpret_trial_criteria_llm json_loads content = PyJson.dict [] := by
  unfold interpret_trial_criteria_llm
  rw [h]

/-- Witness for C9: a parser rejecting everything makes the interpretation
return the empty dict. -/
theorem C9_parse_failure_placeholder_witness :
    (fun _ : String => (Except.error () : Except Unit PyJson)) "not json" =
      Except.error () ∧
    interpret_trial_criteria_llm (fun _ => Except.error ()) "not json" =
      PyJson.dict [] :=
  ⟨rfl,
   C9_parse_failure_placeholder (fun _ => Except.error ()) "not json" () rfl⟩

end TrialMatch
